import Mathlib

/-!
Verification of the Commit-Drafter CLI (auto_commit package): a shallow
embedding of `config.py` (credential persistence), `llm_client.py` (the
language-model gateway and its error taxonomy) and `cli.py` (the `generate`
workflow orchestrator and its exit codes).  Python strings are modelled as
`List Char`; the external world (git, the provider, the terminal) is an
explicit record of inputs.
-/

/-- Characters treated as whitespace by Python str.strip (ASCII range). -/
def pySpace (c : Char) : Bool :=
  (c = ' ') || (c = '\t') || (c = '\n') || (c = '\r') ||
  (c = Char.ofNat 11) || (c = Char.ofNat 12)

/-- Python str.strip(): drop whitespace from both ends. -/
def pyStrip (l : List Char) : List Char :=
  ((l.dropWhile pySpace).reverse.dropWhile pySpace).reverse

/-- Python str.lower() (ASCII). -/
def pyLower (l : List Char) : List Char := l.map Char.toLower

/-- Python file.readlines(): split text into lines, keeping each line's
trailing newline; a final fragment without a newline is kept as-is. -/
def pyReadlines : List Char → List (List Char)
  | [] => []
  | c :: rest =>
    if c = '\n' then ['\n'] :: pyReadlines rest
    else
      match pyReadlines rest with
      | [] => [[c]]
      | l :: ls => (c :: l) :: ls

/-- Python s.endswith of a single newline character. -/
def endsWithNewline (l : List Char) : Bool :=
  match l.getLast? with
  | some c => c = '\n'
  | none => false

/-- A well-formed text line: some newline-free text terminated by a single
newline character.  Every line of a file whose content ends in a newline
has this shape. -/
def WFLine (l : List Char) : Prop :=
  ∃ t, l = t ++ ['\n'] ∧ ('\n') ∉ t

/-- Python substring membership (the in operator on strings). -/
def pyIn (needle : List Char) : List Char → Bool
  | [] => needle.isPrefixOf []
  | c :: rest => needle.isPrefixOf (c :: rest) || pyIn needle rest

/-- The test config.py applies per line: line.strip().startswith(key + eq). -/
def belongsTo (key l : List Char) : Bool :=
  (key ++ ['=']).isPrefixOf (pyStrip l)

/-- config.save_key_to_env: read the .env file, replace every line whose
stripped form starts with the key followed by the equals sign, otherwise
append (repairing a missing trailing newline first), and write back. -/
def save_key_to_env (key_name key_value content : List Char) : List Char :=
  let lines := pyReadlines content
  let entry : List Char := key_name ++ ['='] ++ key_value ++ ['\n']
  let new_lines := lines.map (fun line => if belongsTo key_name line then entry else line)
  let updated := lines.any (fun line => belongsTo key_name line)
  if updated then new_lines.flatten
  else
    let repaired :=
      match new_lines.getLast? with
      | none => new_lines
      | some last => if endsWithNewline last then new_lines else new_lines ++ [['\n']]
    (repaired ++ [entry]).flatten

/-- config.SYSTEM_PROMPT, the fixed system instruction sent with every
generation request. -/
def SYSTEM_PROMPT : String := "You are a senior software engineer acting as an autonomous commit message generator.
Your task is to generate a clean, concise, and meaningful content for a git commit based on the provided diff.

**Constraint Checklist & Confidence Score:**
1. Language: English Only.
2. Format: Conventional Commits (Strictly).
- `type(scope): description` (First line, max 50 chars ideally, absolute max 72)
- (Optional) Body lines (Wrap at 72 chars)
- (Optional) Footer (e.g., BREAKING CHANGE: ...)
3. NO Emojis.
4. Do not include \"Signed-off-by\" or other metadata unless strictly necessary.
5. Content: specific and descriptive. Avoid vague messages like \"fixed bug\" or \"updated code\".

**Types:**
- `feat`: A new feature
- `fix`: A bug fix
- `docs`: Documentation only changes
- `style`: Changes that do not affect the meaning of the code (white-space, formatting, etc)
- `refactor`: A code change that neither fixes a bug nor adds a feature
- `perf`: A code change that improves performance
- `test`: Adding missing tests or correcting existing tests
- `build`: Changes that affect the build system or external dependencies
- `ci`: Changes to our CI configuration files and scripts
- `chore`: Other changes that don\x27t modify src or test files

**Output Format:**
Return ONLY the commit message. Do not output markdown code blocks (```), do not output explanations. Just the raw commit message string.
"

/-- config.DEFAULT_GEMINI_MODEL. -/
def DEFAULT_GEMINI_MODEL : List Char := "gemini-2.5-flash".data

/-- Name of the provider API key variable. -/
def GEMINI_KEY_NAME : List Char := "GEMINI_API_KEY".data

/-- Outcome of the one provider call `client.models.generate_content`:
either generated text, or one of the exception classes the code
distinguishes (google.genai ClientError, other google.genai APIError, or
any other exception). -/
inductive ProviderOutcome where
  | success (text : List Char)
  | clientError (msg : List Char)
  | apiError (msg : List Char)
  | otherError (msg : List Char)
deriving DecidableEq

/-- The LLMClientError hierarchy of llm_client.py: the base class raised
directly (carrying a message and an error code string), and the three
subclasses used by the error translation (each storing its formatted
message). APIKeyMissingError is raised only by the constructor and is
modelled in InitError. -/
inductive LLMError where
  | base (msg code : List Char)
  | keyInvalid (msg : List Char)
  | quotaExceeded (msg : List Char)
  | requestFailed (msg : List Char)
deriving DecidableEq

/-- The request handed to models.generate_content. -/
structure GenRequest where
  model : List Char
  contents : List Char
  system_instruction : List Char
deriving DecidableEq

/-- State of a constructed LLMClient. -/
structure LLMClient where
  provider : List Char
  model : List Char
deriving DecidableEq

/-- Errors raised by LLMClient.__init__: APIKeyMissingError for a missing
key, ValueError for an unsupported provider. -/
inductive InitError where
  | apiKeyMissing (provider : List Char)
  | valueError (provider : List Char)
deriving DecidableEq

/-- Python model or DEFAULT_GEMINI_MODEL: the falsy fallback applied in
LLMClient.__init__ (None and the empty string both fall back). -/
def modelOrDefault : Option (List Char) → List Char
  | none => DEFAULT_GEMINI_MODEL
  | some s => if s = [] then DEFAULT_GEMINI_MODEL else s

/-- LLMClient.__init__: lower-case the provider, and for gemini resolve the
key as api_key falling back to the module-level GEMINI_API_KEY, failing if
both are empty; the model falls back to the pinned default. -/
def LLMClient.init (provider : List Char) (model : Option (List Char))
    (api_key : List Char) (gemini_api_key_env : List Char) : Except InitError LLMClient :=
  let prov := pyLower provider
  if prov = "gemini".data then
    let key := if api_key = [] then gemini_api_key_env else api_key
    if key = [] then Except.error (InitError.apiKeyMissing provider)
    else Except.ok ⟨prov, modelOrDefault model⟩
  else Except.error (InitError.valueError provider)

/-- LLMClient.generate_commit_message.  Returns the request actually sent
to the provider (none when no call is attempted) together with the result:
the trimmed text on success, or the typed error the exception handlers
raise.  The Python method falls off the end (returns None) when the
provider field is not gemini, modelled by `Except.ok none`. -/
def generate_commit_message (self : LLMClient) (diff : List Char)
    (outcome : ProviderOutcome) : Option GenRequest × Except LLMError (Option (List Char)) :=
  if pyStrip diff = [] then
    (none, Except.error (LLMError.base ("No changes detected to generate a commit for.".data) ("NO_CHANGES".data)))
  else
    let prompt_content := "Here is the git diff:\n\n".data ++ diff
    if self.provider = "gemini".data then
      let req : GenRequest := ⟨self.model, prompt_content, SYSTEM_PROMPT.data⟩
      match outcome with
      | ProviderOutcome.success text => (some req, Except.ok (some (pyStrip text)))
      | ProviderOutcome.clientError msg =>
        if (pyIn ("401".data) msg) || (pyIn ("403".data) msg) then
          (some req, Except.error (LLMError.keyInvalid ("Invalid API Key: ".data ++ msg)))
        else if pyIn ("429".data) msg then
          (some req, Except.error (LLMError.quotaExceeded ("API quota exceeded: ".data ++ msg)))
        else
          (some req, Except.error (LLMError.requestFailed ("API request failed: ".data ++ msg)))
      | ProviderOutcome.apiError msg =>
        if pyIn ("429".data) msg then
          (some req, Except.error (LLMError.quotaExceeded ("API quota exceeded: ".data ++ msg)))
        else
          (some req, Except.error (LLMError.requestFailed ("API request failed: ".data ++ msg)))
      | ProviderOutcome.otherError msg =>
        (some req, Except.error (LLMError.requestFailed ("API request failed: ".data ++ msg)))
    else (none, Except.ok none)

def EXIT_SUCCESS : Nat := 0
def EXIT_NOT_GIT_REPO : Nat := 1
def EXIT_STAGE_FAILED : Nat := 2
def EXIT_NO_CHANGES : Nat := 3
def EXIT_API_KEY_MISSING : Nat := 10
def EXIT_API_KEY_INVALID : Nat := 11
def EXIT_QUOTA_EXCEEDED : Nat := 12
def EXIT_API_ERROR : Nat := 13
def EXIT_COMMIT_FAILED : Nat := 20
def EXIT_UNKNOWN_ERROR : Nat := 99

/-- Arguments of the generate command (the staged flag is always True in
the code and is omitted). -/
structure GenArgs where
  provider : List Char
  model : Option (List Char)
  yes : Bool
  printOnly : Bool

/-- The external world one run of generate observes: the git queries, the
module-level GEMINI_API_KEY value (empty for unset), what the user would
type at the key prompt, the provider call outcome, the confirmation answer
and whether git commit succeeds. -/
structure World where
  isRepo : Bool
  stageOk : Bool
  diff : List Char
  envKey : List Char
  promptedKey : List Char
  outcome : ProviderOutcome
  confirmAnswer : Bool
  commitOk : Bool

/-- Observable result of one run of generate: the process exit code and a
trace of the effects the claims speak about. -/
structure RunResult where
  exitCode : Nat
  networkCalled : Bool
  commitCalls : List (List Char)
  promptShown : Bool
  printedOut : Option (List Char)
  keySaved : Option (List Char × List Char)
  errorTag : Option (List Char)
deriving DecidableEq

/-- Exit code chosen by the except-clauses of cli.generate for each error
class raised during generation (the base class falls to the generic
LLMClientError handler). -/
def errorExitCode : LLMError → Nat
  | LLMError.base _ _ => EXIT_UNKNOWN_ERROR
  | LLMError.keyInvalid _ => EXIT_API_KEY_INVALID
  | LLMError.quotaExceeded _ => EXIT_QUOTA_EXCEEDED
  | LLMError.requestFailed _ => EXIT_API_ERROR

/-- The error_code tag print_error shows for each error class. -/
def errorTagOf : LLMError → List Char
  | LLMError.base _ code => code
  | LLMError.keyInvalid _ => "API_KEY_INVALID".data
  | LLMError.quotaExceeded _ => "QUOTA_EXCEEDED".data
  | LLMError.requestFailed _ => "API_ERROR".data

/-- Continuation of the try-block after the client is constructed:
generate, then print-only print or confirm-and-commit; each exception
class maps to its exit code. -/
def runGenerated (args : GenArgs) (w : World) (client : LLMClient)
    (prompted : Bool) (saved : Option (List Char × List Char)) : RunResult :=
  let r := generate_commit_message client w.diff w.outcome
  let net := r.1.isSome
  match r.2 with
  | Except.error e =>
    ⟨errorExitCode e, net, [], prompted, none, saved, some (errorTagOf e)⟩
  | Except.ok none =>
    if args.printOnly then ⟨EXIT_SUCCESS, net, [], prompted, some ("None".data), saved, none⟩
    else ⟨EXIT_UNKNOWN_ERROR, net, [], prompted, none, saved, some ("UNKNOWN".data)⟩
  | Except.ok (some message) =>
    if args.printOnly then ⟨EXIT_SUCCESS, net, [], prompted, some message, saved, none⟩
    else
      let shouldCommit := args.yes || w.confirmAnswer
      if shouldCommit then
        if w.commitOk then ⟨EXIT_SUCCESS, net, [message], prompted, none, saved, none⟩
        else ⟨EXIT_COMMIT_FAILED, net, [message], prompted, none, saved, some ("COMMIT_FAILED".data)⟩
      else ⟨EXIT_SUCCESS, net, [], prompted, none, saved, none⟩

/-- The try-block of cli.generate once a key string is in hand: construct
the client (mapping its two exception classes to exit codes), then run the
generation continuation. -/
def runWithKey (args : GenArgs) (w : World) (key : List Char)
    (prompted : Bool) (saved : Option (List Char × List Char)) : RunResult :=
  match LLMClient.init args.provider args.model key w.envKey with
  | Except.error (InitError.apiKeyMissing _) =>
    ⟨EXIT_API_KEY_MISSING, false, [], prompted, none, saved, some ("API_KEY_MISSING".data)⟩
  | Except.error (InitError.valueError _) =>
    ⟨EXIT_UNKNOWN_ERROR, false, [], prompted, none, saved, some ("UNKNOWN".data)⟩
  | Except.ok client => runGenerated args w client prompted saved

/-- cli.generate: the full workflow — repository check, staging, diff
emptiness check, provider validation, key resolution (with the interactive
prompt unless print-only), then the guarded generation/commit block. -/
def cliGenerate (args : GenArgs) (w : World) : RunResult :=
  if !w.isRepo then
    ⟨EXIT_NOT_GIT_REPO, false, [], false, none, none, some ("NOT_GIT_REPO".data)⟩
  else if !w.stageOk then
    ⟨EXIT_STAGE_FAILED, false, [], false, none, none, some ("STAGE_FAILED".data)⟩
  else if w.diff = [] then
    ⟨EXIT_NO_CHANGES, false, [], false, none, none, some ("NO_CHANGES".data)⟩
  else if args.provider ≠ "gemini".data then
    ⟨EXIT_UNKNOWN_ERROR, false, [], false, none, none, some ("UNSUPPORTED_PROVIDER".data)⟩
  else if w.envKey = [] then
    if args.printOnly then
      ⟨EXIT_API_KEY_MISSING, false, [], false, none, none, some ("API_KEY_MISSING".data)⟩
    else if w.promptedKey = [] then
      ⟨EXIT_API_KEY_MISSING, false, [], true, none, none, some ("API_KEY_MISSING".data)⟩
    else
      runWithKey args w w.promptedKey true (some (GEMINI_KEY_NAME, w.promptedKey))
  else
    runWithKey args w w.envKey false none

theorem pyStrip_nil : pyStrip [] = [] := rfl

theorem ne_nil_of_pyStrip_ne_nil {d : List Char} (h : pyStrip d ≠ []) : d ≠ [] :=
  fun hd => h (by rw [hd]; rfl)

theorem pyLower_gemini_chars : pyLower ("gemini".data) = "gemini".data := by decide

/-- LLMClient.init succeeds with a gemini client whenever the lower-cased
provider is gemini and the passed key is non-empty. -/
theorem init_gemini_eq (provider : List Char) (model : Option (List Char))
    (api_key env : List Char) (hp : pyLower provider = "gemini".data) (hk : api_key ≠ []) :
    LLMClient.init provider model api_key env
      = Except.ok ⟨"gemini".data, modelOrDefault model⟩ := by
  unfold LLMClient.init
  rw [hp]
  simp [hk]

/-- Reaching the key-in-hand block: with a repository, successful staging, a
non-empty diff, the exact provider string gemini and a non-empty module key,
generate runs the guarded block with the environment key, no prompt. -/
theorem cliGenerate_env_key (args : GenArgs) (w : World)
    (hrepo : w.isRepo = true) (hstage : w.stageOk = true) (hdiff : w.diff ≠ [])
    (hprov : args.provider = "gemini".data) (hkey : w.envKey ≠ []) :
    cliGenerate args w = runWithKey args w w.envKey false none := by
  unfold cliGenerate
  simp [hrepo, hstage, hdiff, hprov, hkey]

/-- A successful client construction hands control to the generation
continuation. -/
theorem runWithKey_ok (args : GenArgs) (w : World) (key : List Char) (prompted : Bool)
    (saved : Option (List Char × List Char)) (client : LLMClient)
    (hinit : LLMClient.init args.provider args.model key w.envKey = Except.ok client) :
    runWithKey args w key prompted saved = runGenerated args w client prompted saved := by
  unfold runWithKey
  rw [hinit]

/-- A typed gateway error maps to its except-clause exit code and tag. -/
theorem runGenerated_of_error (args : GenArgs) (w : World) (client : LLMClient)
    (prompted : Bool) (saved : Option (List Char × List Char))
    (req : Option GenRequest) (e : LLMError)
    (h : generate_commit_message client w.diff w.outcome = (req, Except.error e)) :
    runGenerated args w client prompted saved
      = ⟨errorExitCode e, req.isSome, [], prompted, none, saved, some (errorTagOf e)⟩ := by
  unfold runGenerated
  rw [h]

/-- A generated message with the yes flag and a succeeding commit: one
commit call with the message, exit 0. -/
theorem runGenerated_of_ok (args : GenArgs) (w : World) (client : LLMClient)
    (prompted : Bool) (saved : Option (List Char × List Char))
    (req : GenRequest) (text : List Char)
    (h : generate_commit_message client w.diff w.outcome = (some req, Except.ok (some text)))
    (hpo : args.printOnly = false) (hyes : args.yes = true) (hco : w.commitOk = true) :
    runGenerated args w client prompted saved
      = ⟨EXIT_SUCCESS, true, [text], prompted, none, saved, none⟩ := by
  unfold runGenerated
  rw [h]
  simp [hpo, hyes, hco]

/-- C4: for every non-blank diff and any provider outcome, the request the
gateway sends has body exactly "Here is the git diff:\n\n" ++ diff. -/
theorem request_body_exact (c : LLMClient) (diff : List Char) (outcome : ProviderOutcome)
    (hprov : c.provider = "gemini".data) (hdiff : pyStrip diff ≠ []) :
    (generate_commit_message c diff outcome).1.map GenRequest.contents
      = some ("Here is the git diff:\n\n".data ++ diff) := by
  cases outcome <;> simp [generate_commit_message, hdiff, hprov] <;> split_ifs <;> simp

/-- Witness for C4 at a concrete diff and outcome. -/
theorem request_body_exact_witness :
    (⟨"gemini".data, DEFAULT_GEMINI_MODEL⟩ : LLMClient).provider = "gemini".data ∧
    pyStrip ("d".data) ≠ [] ∧
    (generate_commit_message ⟨"gemini".data, DEFAULT_GEMINI_MODEL⟩ ("d".data)
        (ProviderOutcome.success ("m".data))).1.map GenRequest.contents
      = some ("Here is the git diff:\n\n".data ++ "d".data) :=
  ⟨rfl, by decide, request_body_exact ⟨"gemini".data, DEFAULT_GEMINI_MODEL⟩ ("d".data)
    (ProviderOutcome.success ("m".data)) rfl (by decide)⟩

/-- Shared reduction: any blank diff short-circuits the gateway before the
provider branch. -/
theorem gen_blank_diff (c : LLMClient) (diff : List Char) (outcome : ProviderOutcome)
    (hblank : pyStrip diff = []) :
    generate_commit_message c diff outcome
      = (none, Except.error (LLMError.base ("No changes detected to generate a commit for.".data)
          ("NO_CHANGES".data))) := by
  unfold generate_commit_message
  rw [if_pos hblank]

/-- C5: for every blank (empty or whitespace-only) diff, the gateway fails
with the typed NO_CHANGES error and sends no request at all, whatever the
provider would have answered. -/
theorem blank_diff_typed_error (c : LLMClient) (diff : List Char) (outcome : ProviderOutcome)
    (hblank : pyStrip diff = []) :
    generate_commit_message c diff outcome
      = (none, Except.error (LLMError.base ("No changes detected to generate a commit for.".data)
          ("NO_CHANGES".data))) :=
  gen_blank_diff c diff outcome hblank

/-- Witness for C5 at a whitespace-only diff. -/
theorem blank_diff_typed_error_witness :
    pyStrip (" \n\t".data) = [] ∧
    generate_commit_message ⟨"gemini".data, DEFAULT_GEMINI_MODEL⟩ (" \n\t".data)
        (ProviderOutcome.clientError ("x".data))
      = (none, Except.error (LLMError.base ("No changes detected to generate a commit for.".data)
          ("NO_CHANGES".data))) :=
  ⟨by decide, blank_diff_typed_error ⟨"gemini".data, DEFAULT_GEMINI_MODEL⟩ (" \n\t".data)
    (ProviderOutcome.clientError ("x".data)) (by decide)⟩

/-- C6: when the staged diff read after staging is empty, generate exits
with code 3 and the gateway (hence the network) is never invoked. -/
theorem empty_diff_exit3 (args : GenArgs) (w : World)
    (hrepo : w.isRepo = true) (hstage : w.stageOk = true) (hdiff : w.diff = []) :
    (cliGenerate args w).exitCode = EXIT_NO_CHANGES ∧
    (cliGenerate args w).networkCalled = false := by
  unfold cliGenerate
  simp [hrepo, hstage, hdiff]

/-- Witness for C6 at a concrete empty-diff world. -/
theorem empty_diff_exit3_witness :
    (true : Bool) = true ∧
    (cliGenerate ⟨"gemini".data, none, false, false⟩
        ⟨true, true, [], "k".data, [], ProviderOutcome.success ("m".data), true, true⟩).exitCode
      = EXIT_NO_CHANGES ∧
    (cliGenerate ⟨"gemini".data, none, false, false⟩
        ⟨true, true, [], "k".data, [], ProviderOutcome.success ("m".data), true, true⟩).networkCalled
      = false := by
  refine ⟨rfl, ?_⟩
  exact empty_diff_exit3 ⟨"gemini".data, none, false, false⟩
    ⟨true, true, [], "k".data, [], ProviderOutcome.success ("m".data), true, true⟩ rfl rfl rfl

/-- C7: in print-only mode with no resolvable key, generate prints the
key-missing error tag to stderr and exits 10, with no prompt and no
network call. -/
theorem print_only_missing_key (args : GenArgs) (w : World)
    (hpo : args.printOnly = true) (hrepo : w.isRepo = true) (hstage : w.stageOk = true)
    (hdiff : w.diff ≠ []) (hprov : args.provider = "gemini".data) (hkey : w.envKey = []) :
    (cliGenerate args w).exitCode = EXIT_API_KEY_MISSING ∧
    (cliGenerate args w).promptShown = false ∧
    (cliGenerate args w).networkCalled = false ∧
    (cliGenerate args w).errorTag = some ("API_KEY_MISSING".data) := by
  unfold cliGenerate
  simp [hpo, hrepo, hstage, hdiff, hprov, hkey]

/-- Witness for C7 at a concrete world with an unset key. -/
theorem print_only_missing_key_witness :
    ("d".data : List Char) ≠ [] ∧
    (cliGenerate ⟨"gemini".data, none, false, true⟩
        ⟨true, true, "d".data, [], "typed".data, ProviderOutcome.success ("m".data), true, true⟩).exitCode
      = EXIT_API_KEY_MISSING ∧
    (cliGenerate ⟨"gemini".data, none, false, true⟩
        ⟨true, true, "d".data, [], "typed".data, ProviderOutcome.success ("m".data), true, true⟩).promptShown
      = false ∧
    (cliGenerate ⟨"gemini".data, none, false, true⟩
        ⟨true, true, "d".data, [], "typed".data, ProviderOutcome.success ("m".data), true, true⟩).networkCalled
      = false ∧
    (cliGenerate ⟨"gemini".data, none, false, true⟩
        ⟨true, true, "d".data, [], "typed".data, ProviderOutcome.success ("m".data), true, true⟩).errorTag
      = some ("API_KEY_MISSING".data) := by
  refine ⟨by decide, ?_⟩
  exact print_only_missing_key ⟨"gemini".data, none, false, true⟩
    ⟨true, true, "d".data, [], "typed".data, ProviderOutcome.success ("m".data), true, true⟩
    rfl rfl rfl (by decide) rfl rfl

/-- C2: a provider ClientError whose message contains 401 or 403 is raised
by the gateway as the key-invalid error, and generate exits with code 11. -/
theorem auth_error_key_invalid (msg : List Char) (args : GenArgs) (w : World)
    (hauth : pyIn ("401".data) msg = true ∨ pyIn ("403".data) msg = true)
    (hrepo : w.isRepo = true) (hstage : w.stageOk = true)
    (hblank : pyStrip w.diff ≠ []) (hprov : args.provider = "gemini".data)
    (hkey : w.envKey ≠ []) (hout : w.outcome = ProviderOutcome.clientError msg) :
    (∀ c : LLMClient, c.provider = "gemini".data →
      (generate_commit_message c w.diff w.outcome).2
        = Except.error (LLMError.keyInvalid ("Invalid API Key: ".data ++ msg))) ∧
    (cliGenerate args w).exitCode = EXIT_API_KEY_INVALID := by
  have hgen : ∀ c : LLMClient, c.provider = "gemini".data →
      (generate_commit_message c w.diff w.outcome).2
        = Except.error (LLMError.keyInvalid ("Invalid API Key: ".data ++ msg)) := by
    intro c hc
    rcases hauth with h | h <;> simp [generate_commit_message, hblank, hc, hout, h]
  refine ⟨hgen, ?_⟩
  have hfull : generate_commit_message ⟨"gemini".data, modelOrDefault args.model⟩ w.diff w.outcome
      = (some ⟨modelOrDefault args.model, "Here is the git diff:\n\n".data ++ w.diff, SYSTEM_PROMPT.data⟩,
         Except.error (LLMError.keyInvalid ("Invalid API Key: ".data ++ msg))) := by
    rcases hauth with h | h <;> simp [generate_commit_message, hblank, hout, h]
  rw [cliGenerate_env_key args w hrepo hstage (ne_nil_of_pyStrip_ne_nil hblank) hprov hkey,
    runWithKey_ok args w w.envKey false none _
      (init_gemini_eq args.provider args.model w.envKey w.envKey
        (by rw [hprov]; exact pyLower_gemini_chars) hkey),
    runGenerated_of_error args w _ false none _ _ hfull]
  rfl

/-- Witness for C2 at a concrete 403 message. -/
theorem auth_error_key_invalid_witness :
    (pyIn ("401".data) ("HTTP 403 forbidden".data) = true ∨
      pyIn ("403".data) ("HTTP 403 forbidden".data) = true) ∧
    (cliGenerate ⟨"gemini".data, none, false, false⟩
        ⟨true, true, "d".data, "k".data, [],
          ProviderOutcome.clientError ("HTTP 403 forbidden".data), true, true⟩).exitCode
      = EXIT_API_KEY_INVALID :=
  ⟨Or.inr (by decide),
    (auth_error_key_invalid ("HTTP 403 forbidden".data) ⟨"gemini".data, none, false, false⟩
      ⟨true, true, "d".data, "k".data, [],
        ProviderOutcome.clientError ("HTTP 403 forbidden".data), true, true⟩
      (Or.inr (by decide)) rfl rfl (by decide) rfl (by decide) rfl).2⟩

/-- C9: a non-empty but whitespace-only diff passes the orchestrator check,
the gateway raises the NO_CHANGES base error without any provider call, and
generate exits with the unknown-error code 99, not 3. -/
theorem whitespace_diff_exit99 (args : GenArgs) (w : World)
    (hrepo : w.isRepo = true) (hstage : w.stageOk = true)
    (hne : w.diff ≠ []) (hblank : pyStrip w.diff = [])
    (hprov : args.provider = "gemini".data) (hkey : w.envKey ≠ []) :
    (cliGenerate args w).exitCode = EXIT_UNKNOWN_ERROR ∧
    (cliGenerate args w).exitCode ≠ EXIT_NO_CHANGES ∧
    (∀ c : LLMClient, (generate_commit_message c w.diff w.outcome).2
      = Except.error (LLMError.base ("No changes detected to generate a commit for.".data)
          ("NO_CHANGES".data))) ∧
    (cliGenerate args w).networkCalled = false := by
  have hgen : ∀ c : LLMClient, generate_commit_message c w.diff w.outcome
      = (none, Except.error (LLMError.base ("No changes detected to generate a commit for.".data)
          ("NO_CHANGES".data))) :=
    fun c => gen_blank_diff c w.diff w.outcome hblank
  have hrun : cliGenerate args w = runWithKey args w w.envKey false none :=
    cliGenerate_env_key args w hrepo hstage hne hprov hkey
  have hrw : runWithKey args w w.envKey false none
      = ⟨EXIT_UNKNOWN_ERROR, false, [], false, none, none, some ("NO_CHANGES".data)⟩ := by
    rw [runWithKey_ok args w w.envKey false none _
        (init_gemini_eq args.provider args.model w.envKey w.envKey
          (by rw [hprov]; exact pyLower_gemini_chars) hkey),
      runGenerated_of_error args w _ false none _ _
        (hgen ⟨"gemini".data, modelOrDefault args.model⟩)]
    rfl
  rw [hrun, hrw]
  exact ⟨rfl, by decide, fun c => by rw [hgen c], rfl⟩

/-- Witness for C9 at a concrete whitespace diff. -/
theorem whitespace_diff_exit99_witness :
    (("  \n".data : List Char) ≠ [] ∧ pyStrip ("  \n".data) = []) ∧
    (cliGenerate ⟨"gemini".data, none, false, false⟩
        ⟨true, true, "  \n".data, "k".data, [],
          ProviderOutcome.success ("m".data), true, true⟩).exitCode = EXIT_UNKNOWN_ERROR ∧
    (cliGenerate ⟨"gemini".data, none, false, false⟩
        ⟨true, true, "  \n".data, "k".data, [],
          ProviderOutcome.success ("m".data), true, true⟩).networkCalled = false := by
  refine ⟨⟨by decide, by decide⟩, ?_, ?_⟩
  · exact (whitespace_diff_exit99 ⟨"gemini".data, none, false, false⟩
      ⟨true, true, "  \n".data, "k".data, [], ProviderOutcome.success ("m".data), true, true⟩
      rfl rfl (by decide) (by decide) rfl (by decide)).1
  · exact (whitespace_diff_exit99 ⟨"gemini".data, none, false, false⟩
      ⟨true, true, "  \n".data, "k".data, [], ProviderOutcome.success ("m".data), true, true⟩
      rfl rfl (by decide) (by decide) rfl (by decide)).2.2.2

/-- C8: with a valid non-blank diff, the yes flag, a successful generation
and a succeeding commit, the commit operation is invoked exactly once with
exactly the trimmed generated message, and the run exits 0. -/
theorem yes_flag_commits_once (args : GenArgs) (w : World) (text : List Char)
    (hrepo : w.isRepo = true) (hstage : w.stageOk = true)
    (hblank : pyStrip w.diff ≠ []) (hprov : args.provider = "gemini".data)
    (hkey : w.envKey ≠ []) (hpo : args.printOnly = false) (hyes : args.yes = true)
    (hout : w.outcome = ProviderOutcome.success text) (hco : w.commitOk = true) :
    (cliGenerate args w).exitCode = EXIT_SUCCESS ∧
    (cliGenerate args w).commitCalls = [pyStrip text] := by
  have hfull : generate_commit_message ⟨"gemini".data, modelOrDefault args.model⟩ w.diff w.outcome
      = (some ⟨modelOrDefault args.model, "Here is the git diff:\n\n".data ++ w.diff, SYSTEM_PROMPT.data⟩,
         Except.ok (some (pyStrip text))) := by
    simp [generate_commit_message, hblank, hout]
  rw [cliGenerate_env_key args w hrepo hstage (ne_nil_of_pyStrip_ne_nil hblank) hprov hkey,
    runWithKey_ok args w w.envKey false none _
      (init_gemini_eq args.provider args.model w.envKey w.envKey
        (by rw [hprov]; exact pyLower_gemini_chars) hkey),
    runGenerated_of_ok args w _ false none _ _ hfull hpo hyes hco]
  exact ⟨rfl, rfl⟩

/-- Witness for C8 at a concrete run with the yes flag. -/
theorem yes_flag_commits_once_witness :
    pyStrip ("d".data) ≠ [] ∧
    (cliGenerate ⟨"gemini".data, none, true, false⟩
        ⟨true, true, "d".data, "k".data, [],
          ProviderOutcome.success (" feat: x \n".data), false, true⟩).exitCode = EXIT_SUCCESS ∧
    (cliGenerate ⟨"gemini".data, none, true, false⟩
        ⟨true, true, "d".data, "k".data, [],
          ProviderOutcome.success (" feat: x \n".data), false, true⟩).commitCalls
      = [pyStrip (" feat: x \n".data)] := by
  refine ⟨by decide, ?_, ?_⟩
  · exact (yes_flag_commits_once ⟨"gemini".data, none, true, false⟩
      ⟨true, true, "d".data, "k".data, [], ProviderOutcome.success (" feat: x \n".data), false, true⟩
      (" feat: x \n".data) rfl rfl (by decide) rfl (by decide) rfl rfl rfl rfl).1
  · exact (yes_flag_commits_once ⟨"gemini".data, none, true, false⟩
      ⟨true, true, "d".data, "k".data, [], ProviderOutcome.success (" feat: x \n".data), false, true⟩
      (" feat: x \n".data) rfl rfl (by decide) rfl (by decide) rfl rfl rfl rfl).2

/-- C1 (amended): a provider failure raised as a typed API error whose
message contains 429 — a ClientError whose message contains neither 401
nor 403, or any non-client APIError — is raised by the gateway as
quota-exceeded and generate exits 12; the original unconditional claim
fails because the ClientError handler tests 401/403 first and the
catch-all for non-API exceptions always raises request-failed. -/
theorem quota_429_amended (msg : List Char) (args : GenArgs) (w : World)
    (h429 : pyIn ("429".data) msg = true)
    (hrepo : w.isRepo = true) (hstage : w.stageOk = true)
    (hblank : pyStrip w.diff ≠ []) (hprov : args.provider = "gemini".data)
    (hkey : w.envKey ≠ []) :
    (w.outcome = ProviderOutcome.clientError msg →
      (pyIn ("401".data) msg = false) → (pyIn ("403".data) msg = false) →
      (generate_commit_message ⟨"gemini".data, modelOrDefault args.model⟩ w.diff w.outcome).2
        = Except.error (LLMError.quotaExceeded ("API quota exceeded: ".data ++ msg)) ∧
      (cliGenerate args w).exitCode = EXIT_QUOTA_EXCEEDED) ∧
    (w.outcome = ProviderOutcome.apiError msg →
      (generate_commit_message ⟨"gemini".data, modelOrDefault args.model⟩ w.diff w.outcome).2
        = Except.error (LLMError.quotaExceeded ("API quota exceeded: ".data ++ msg)) ∧
      (cliGenerate args w).exitCode = EXIT_QUOTA_EXCEEDED) := by
  constructor
  · intro hout h401 h403
    have hfull : generate_commit_message ⟨"gemini".data, modelOrDefault args.model⟩ w.diff w.outcome
        = (some ⟨modelOrDefault args.model, "Here is the git diff:\n\n".data ++ w.diff, SYSTEM_PROMPT.data⟩,
           Except.error (LLMError.quotaExceeded ("API quota exceeded: ".data ++ msg))) := by
      simp [generate_commit_message, hblank, hout, h401, h403, h429]
    refine ⟨by rw [hfull], ?_⟩
    rw [cliGenerate_env_key args w hrepo hstage (ne_nil_of_pyStrip_ne_nil hblank) hprov hkey,
      runWithKey_ok args w w.envKey false none _
        (init_gemini_eq args.provider args.model w.envKey w.envKey
          (by rw [hprov]; exact pyLower_gemini_chars) hkey),
      runGenerated_of_error args w _ false none _ _ hfull]
    rfl
  · intro hout
    have hfull : generate_commit_message ⟨"gemini".data, modelOrDefault args.model⟩ w.diff w.outcome
        = (some ⟨modelOrDefault args.model, "Here is the git diff:\n\n".data ++ w.diff, SYSTEM_PROMPT.data⟩,
           Except.error (LLMError.quotaExceeded ("API quota exceeded: ".data ++ msg))) := by
      simp [generate_commit_message, hblank, hout, h429]
    refine ⟨by rw [hfull], ?_⟩
    rw [cliGenerate_env_key args w hrepo hstage (ne_nil_of_pyStrip_ne_nil hblank) hprov hkey,
      runWithKey_ok args w w.envKey false none _
        (init_gemini_eq args.provider args.model w.envKey w.envKey
          (by rw [hprov]; exact pyLower_gemini_chars) hkey),
      runGenerated_of_error args w _ false none _ _ hfull]
    rfl

/-- Witness for the amended C1 at a concrete pure-429 message. -/
theorem quota_429_amended_witness :
    pyIn ("429".data) ("HTTP 429 rate limit".data) = true ∧
    pyIn ("401".data) ("HTTP 429 rate limit".data) = false ∧
    pyIn ("403".data) ("HTTP 429 rate limit".data) = false ∧
    (cliGenerate ⟨"gemini".data, none, false, false⟩
        ⟨true, true, "d".data, "k".data, [],
          ProviderOutcome.clientError ("HTTP 429 rate limit".data), true, true⟩).exitCode
      = EXIT_QUOTA_EXCEEDED ∧
    (cliGenerate ⟨"gemini".data, none, false, false⟩
        ⟨true, true, "d".data, "k".data, [],
          ProviderOutcome.apiError ("HTTP 429 rate limit".data), true, true⟩).exitCode
      = EXIT_QUOTA_EXCEEDED := by
  refine ⟨by decide, by decide, by decide, ?_, ?_⟩
  · exact (((quota_429_amended ("HTTP 429 rate limit".data) ⟨"gemini".data, none, false, false⟩
      ⟨true, true, "d".data, "k".data, [],
        ProviderOutcome.clientError ("HTTP 429 rate limit".data), true, true⟩
      (by decide) rfl rfl (by decide) rfl (by decide)).1 rfl (by decide) (by decide))).2
  · exact ((quota_429_amended ("HTTP 429 rate limit".data) ⟨"gemini".data, none, false, false⟩
      ⟨true, true, "d".data, "k".data, [],
        ProviderOutcome.apiError ("HTTP 429 rate limit".data), true, true⟩
      (by decide) rfl rfl (by decide) rfl (by decide)).2 rfl).2

/-- Counterexample to C1 as stated: two provider failures whose messages
contain 429 that do not surface as quota-exceeded.  A ClientError whose
message also contains 403 is raised as key-invalid (exit 11), and a
non-API exception whose message contains 429 is raised as the generic
request-failed (exit 13). -/
theorem quota_429_counterexample :
    (pyIn ("429".data) ("403 then 429 limit".data) = true ∧
      (generate_commit_message ⟨"gemini".data, DEFAULT_GEMINI_MODEL⟩ ("d".data)
          (ProviderOutcome.clientError ("403 then 429 limit".data))).2
        = Except.error (LLMError.keyInvalid ("Invalid API Key: 403 then 429 limit".data)) ∧
      (cliGenerate ⟨"gemini".data, none, false, false⟩
          ⟨true, true, "d".data, "k".data, [],
            ProviderOutcome.clientError ("403 then 429 limit".data), true, true⟩).exitCode
        = EXIT_API_KEY_INVALID) ∧
    (pyIn ("429".data) ("timeout after 429".data) = true ∧
      (generate_commit_message ⟨"gemini".data, DEFAULT_GEMINI_MODEL⟩ ("d".data)
          (ProviderOutcome.otherError ("timeout after 429".data))).2
        = Except.error (LLMError.requestFailed ("API request failed: timeout after 429".data)) ∧
      (cliGenerate ⟨"gemini".data, none, false, false⟩
          ⟨true, true, "d".data, "k".data, [],
            ProviderOutcome.otherError ("timeout after 429".data), true, true⟩).exitCode
        = EXIT_API_ERROR) := by
  exact ⟨⟨by decide, rfl, by decide⟩, ⟨by decide, rfl, by decide⟩⟩

/-- C10: any provider argument other than the exact lowercase string gemini
makes generate exit 99 at the provider guard — no prompt, no saved key, no
network call — even though LLMClient.__init__ lower-cases the provider and
accepts any casing of gemini when a key is present. -/
theorem provider_guard_exit99 :
    (∀ (args : GenArgs) (w : World), args.provider ≠ "gemini".data →
      w.isRepo = true → w.stageOk = true → w.diff ≠ [] →
      (cliGenerate args w).exitCode = EXIT_UNKNOWN_ERROR ∧
      (cliGenerate args w).promptShown = false ∧
      (cliGenerate args w).networkCalled = false ∧
      (cliGenerate args w).keySaved = none ∧
      (cliGenerate args w).errorTag = some ("UNSUPPORTED_PROVIDER".data)) ∧
    (∀ (provider : List Char) (model : Option (List Char)) (api_key env : List Char),
      pyLower provider = "gemini".data → api_key ≠ [] →
      LLMClient.init provider model api_key env
        = Except.ok ⟨"gemini".data, modelOrDefault model⟩) := by
  constructor
  · intro args w hprov hrepo hstage hdiff
    unfold cliGenerate
    simp [hrepo, hstage, hdiff, hprov]
  · exact fun provider model api_key env hp hk => init_gemini_eq provider model api_key env hp hk

/-- Witness for C10: the casing GEMINI is rejected by the command with exit
99 and no prompt or call, yet accepted by the client constructor. -/
theorem provider_guard_exit99_witness :
    ("GEMINI".data : List Char) ≠ "gemini".data ∧
    (cliGenerate ⟨"GEMINI".data, none, false, false⟩
        ⟨true, true, "d".data, [], "typed".data,
          ProviderOutcome.success ("m".data), true, true⟩).exitCode = EXIT_UNKNOWN_ERROR ∧
    (cliGenerate ⟨"GEMINI".data, none, false, false⟩
        ⟨true, true, "d".data, [], "typed".data,
          ProviderOutcome.success ("m".data), true, true⟩).promptShown = false ∧
    (cliGenerate ⟨"GEMINI".data, none, false, false⟩
        ⟨true, true, "d".data, [], "typed".data,
          ProviderOutcome.success ("m".data), true, true⟩).networkCalled = false ∧
    pyLower ("GEMINI".data) = "gemini".data ∧
    LLMClient.init ("GEMINI".data) none ("k".data) []
      = Except.ok ⟨"gemini".data, modelOrDefault none⟩ := by
  have h := provider_guard_exit99
  refine ⟨by decide, ?_, ?_, ?_, by decide, ?_⟩
  · exact (h.1 ⟨"GEMINI".data, none, false, false⟩
      ⟨true, true, "d".data, [], "typed".data, ProviderOutcome.success ("m".data), true, true⟩
      (by decide) rfl rfl (by decide)).1
  · exact (h.1 ⟨"GEMINI".data, none, false, false⟩
      ⟨true, true, "d".data, [], "typed".data, ProviderOutcome.success ("m".data), true, true⟩
      (by decide) rfl rfl (by decide)).2.1
  · exact (h.1 ⟨"GEMINI".data, none, false, false⟩
      ⟨true, true, "d".data, [], "typed".data, ProviderOutcome.success ("m".data), true, true⟩
      (by decide) rfl rfl (by decide)).2.2.1
  · exact h.2 ("GEMINI".data) none ("k".data) [] (by decide) (by decide)

theorem pyReadlines_ne_nil (c : Char) (rest : List Char) : pyReadlines (c :: rest) ≠ [] := by
  unfold pyReadlines
  by_cases hc : c = '\n'
  · simp [hc]
  · rw [if_neg hc]
    cases hrec : pyReadlines rest <;> simp

theorem pyReadlines_cons (c : Char) (rest : List Char) :
    pyReadlines (c :: rest)
      = if c = '\n' then ['\n'] :: pyReadlines rest
        else match pyReadlines rest with
          | [] => [[c]]
          | l :: ls => (c :: l) :: ls := by
  conv_lhs => rw [pyReadlines.eq_def]

theorem pyReadlines_cons_newline (s : List Char) :
    pyReadlines ('\n' :: s) = ['\n'] :: pyReadlines s := by
  rw [pyReadlines_cons, if_pos rfl]

theorem pyReadlines_append (t s : List Char) (h : ('\n') ∉ t) :
    pyReadlines (t ++ '\n' :: s) = (t ++ ['\n']) :: pyReadlines s := by
  induction t with
  | nil => simp [pyReadlines_cons_newline]
  | cons c t ih =>
    have hc : c ≠ '\n' := fun hh => h (hh ▸ List.mem_cons_self c t)
    have ht : ('\n') ∉ t := fun hh => h (List.mem_cons_of_mem c hh)
    show pyReadlines (c :: (t ++ '\n' :: s)) = ((c :: t) ++ ['\n']) :: pyReadlines s
    rw [pyReadlines_cons, if_neg hc, ih ht]
    simp

theorem pyReadlines_flatten (ls : List (List Char)) (h : ∀ l ∈ ls, WFLine l) :
    pyReadlines ls.flatten = ls := by
  induction ls with
  | nil => rfl
  | cons l ls ih =>
    obtain ⟨t, hl, hnl⟩ := h l (List.mem_cons_self l ls)
    rw [List.flatten_cons, hl, List.append_assoc, List.singleton_append,
      pyReadlines_append t _ hnl, ih (fun x hm => h x (List.mem_cons_of_mem _ hm))]

theorem pyReadlines_wf : ∀ (s : List Char), s.getLast? = some '\n' →
    ∀ l ∈ pyReadlines s, WFLine l := by
  intro s
  induction s with
  | nil => intro h; simp at h
  | cons c rest ih =>
    intro h l hl
    cases rest with
    | nil =>
      simp [List.getLast?] at h
      subst h
      simp [pyReadlines] at hl
      exact ⟨[], by simp [hl], by simp⟩
    | cons d ds =>
      have hrest : (d :: ds).getLast? = some '\n' := by
        rw [List.getLast?_cons_cons] at h; exact h
      by_cases hc : c = '\n'
      · subst hc
        unfold pyReadlines at hl
        rw [if_pos rfl] at hl
        rcases List.mem_cons.mp hl with h1 | h2
        · exact ⟨[], by simp [h1], by simp⟩
        · exact ih hrest l h2
      · unfold pyReadlines at hl
        rw [if_neg hc] at hl
        cases hrec : pyReadlines (d :: ds) with
        | nil => exact absurd hrec (pyReadlines_ne_nil d ds)
        | cons l0 ls0 =>
          rw [hrec] at hl
          rcases List.mem_cons.mp hl with h1 | h2
          · obtain ⟨t, hteq, htnl⟩ := ih hrest l0 (by rw [hrec]; exact List.mem_cons_self l0 ls0)
            refine ⟨c :: t, by rw [h1, hteq]; rfl, ?_⟩
            intro hm
            rcases List.mem_cons.mp hm with h3 | h4
            · exact hc h3.symm
            · exact htnl h4
          · exact ih hrest l (by rw [hrec]; exact List.mem_cons_of_mem l0 h2)

theorem isPrefixOf_self_append (a b : List Char) : (a.isPrefixOf (a ++ b)) = true := by
  induction a with
  | nil => simp [List.isPrefixOf]
  | cons c cs ih => simp [List.isPrefixOf, ih]

theorem dropWhile_eq_self_of_head (l : List Char)
    (h : ∀ c, l.head? = some c → pySpace c = false) :
    l.dropWhile pySpace = l := by
  cases l with
  | nil => rfl
  | cons c rest => simp [List.dropWhile_cons, h c rfl]

theorem dropWhile_append_keep (p : Char → Bool) (a : List Char) (c : Char) (b : List Char)
    (hc : p c = false) :
    (a ++ c :: b).dropWhile p = a.dropWhile p ++ c :: b := by
  induction a with
  | nil => simp [List.dropWhile_cons, hc]
  | cons x xs ih =>
    by_cases hx : p x
    · simp [List.dropWhile_cons, hx, ih]
    · simp [List.dropWhile_cons, hx]

theorem belongsTo_entry (key v : List Char)
    (hh : ∀ c, key.head? = some c → pySpace c = false) :
    belongsTo key (key ++ ['='] ++ v ++ ['\n']) = true := by
  unfold belongsTo pyStrip
  have h1 : (key ++ ['='] ++ v ++ ['\n']).dropWhile pySpace = key ++ ['='] ++ v ++ ['\n'] := by
    apply dropWhile_eq_self_of_head
    intro c hc
    cases key with
    | nil =>
      simp at hc
      rw [← hc]
      decide
    | cons k ks =>
      simp at hc
      rw [← hc]
      exact hh k rfl
  rw [h1]
  have h2 : (key ++ ['='] ++ v ++ ['\n']).reverse = ('\n' :: v.reverse) ++ '=' :: key.reverse := by
    simp
  rw [h2, dropWhile_append_keep pySpace ('\n' :: v.reverse) '=' key.reverse (by decide)]
  have h3 : ('\n' :: v.reverse).dropWhile pySpace = v.reverse.dropWhile pySpace := by
    have hnl : pySpace '\n' = true := by decide
    rw [List.dropWhile_cons, if_pos hnl]
  rw [h3]
  have h4 : (v.reverse.dropWhile pySpace ++ '=' :: key.reverse).reverse
      = (key ++ ['=']) ++ (v.reverse.dropWhile pySpace).reverse := by
    simp
  rw [h4]
  exact isPrefixOf_self_append _ _

theorem WFLine_entry (key v : List Char) (hk : ('\n') ∉ key) (hv : ('\n') ∉ v) :
    WFLine (key ++ ['='] ++ v ++ ['\n']) := by
  refine ⟨key ++ ['='] ++ v, by simp, ?_⟩
  intro hm
  rcases List.mem_append.mp hm with h12 | h3
  · rcases List.mem_append.mp h12 with h1 | h2
    · exact hk h1
    · exact absurd (List.mem_singleton.mp h2) (by decide)
  · exact hv h3

theorem filter_belongs_map (key entry : List Char) (hb : belongsTo key entry = true)
    (lines : List (List Char)) :
    (lines.map (fun l => if belongsTo key l then entry else l)).filter
        (fun l => belongsTo key l)
      = List.replicate (lines.countP (fun l => belongsTo key l)) entry := by
  induction lines with
  | nil => rfl
  | cons l ls ih =>
    by_cases h : belongsTo key l
    · simp [List.filter_cons, List.countP_cons, h, hb, ih, List.replicate_succ]
    · simp [List.filter_cons, List.countP_cons, h, ih]

theorem filter_not_belongs_map (key entry : List Char) (hb : belongsTo key entry = true)
    (lines : List (List Char)) :
    (lines.map (fun l => if belongsTo key l then entry else l)).filter
        (fun l => !(belongsTo key l))
      = lines.filter (fun l => !(belongsTo key l)) := by
  induction lines with
  | nil => rfl
  | cons l ls ih =>
    by_cases h : belongsTo key l <;> simp [List.filter_cons, h, hb, ih]

theorem map_eq_self_of_none (key entry : List Char) (lines : List (List Char))
    (h : lines.any (fun l => belongsTo key l) = false) :
    lines.map (fun l => if belongsTo key l then entry else l) = lines := by
  induction lines with
  | nil => rfl
  | cons l ls ih =>
    rw [List.any_cons, Bool.or_eq_false_iff] at h
    simp [h.1, ih h.2]

theorem countP_belongs_map (key entry : List Char) (hb : belongsTo key entry = true)
    (lines : List (List Char)) :
    (lines.map (fun l => if belongsTo key l then entry else l)).countP
        (fun l => belongsTo key l)
      = lines.countP (fun l => belongsTo key l) := by
  induction lines with
  | nil => rfl
  | cons l ls ih =>
    by_cases h : belongsTo key l <;> simp [List.countP_cons, h, hb, ih]

theorem endsWithNewline_of_wf (l : List Char) (h : WFLine l) : endsWithNewline l = true := by
  obtain ⟨t, ht, _⟩ := h
  have hlast : l.getLast? = some '\n' := by
    rw [ht, List.getLast?_append_cons]
    rfl
  unfold endsWithNewline
  rw [hlast]
  simp

theorem save_eq_of_any (key v content : List Char)
    (hup : (pyReadlines content).any (fun l => belongsTo key l) = true) :
    save_key_to_env key v content
      = ((pyReadlines content).map
          (fun l => if belongsTo key l then key ++ ['='] ++ v ++ ['\n'] else l)).flatten := by
  unfold save_key_to_env
  simp [hup]

theorem save_eq_of_none (key v content : List Char)
    (hup : (pyReadlines content).any (fun l => belongsTo key l) = false)
    (hwf : ∀ l ∈ pyReadlines content, WFLine l) :
    save_key_to_env key v content
      = (pyReadlines content ++ [key ++ ['='] ++ v ++ ['\n']]).flatten := by
  simp only [save_key_to_env]
  rw [map_eq_self_of_none key (key ++ ['='] ++ v ++ ['\n']) (pyReadlines content) hup]
  rw [hup]
  simp only [Bool.false_eq_true, if_false]
  cases hlast : (pyReadlines content).getLast? with
  | none => simp
  | some last =>
    have hmem0 : last ∈ (pyReadlines content).getLast? := Option.mem_def.mpr hlast
    obtain ⟨hne, heq⟩ := List.mem_getLast?_eq_getLast hmem0
    have hmem : last ∈ pyReadlines content := heq ▸ List.getLast_mem hne
    simp [endsWithNewline_of_wf last (hwf last hmem)]

/-- C3 (amended): for an initial file content that is empty or
newline-terminated and holds at most one line for the key, a key name with
no newline and no leading whitespace, and values without newlines,
persisting v1 then v2 leaves exactly one line for the key — the line
key=v2 — and keeps every line not belonging to the key byte-identical; the
unrestricted claim fails on duplicate key lines, unterminated files,
whitespace-led keys and values containing newlines. -/
theorem save_key_twice (key v1 v2 content : List Char)
    (hend : content = [] ∨ content.getLast? = some '\n')
    (hcount : (pyReadlines content).countP (fun l => belongsTo key l) ≤ 1)
    (hkeyNL : ('\n') ∉ key)
    (hkeyWS : ∀ c, key.head? = some c → pySpace c = false)
    (hv1 : ('\n') ∉ v1) (hv2 : ('\n') ∉ v2) :
    (pyReadlines (save_key_to_env key v2 (save_key_to_env key v1 content))).filter
        (fun l => belongsTo key l) = [key ++ ['='] ++ v2 ++ ['\n']] ∧
    (pyReadlines (save_key_to_env key v2 (save_key_to_env key v1 content))).filter
        (fun l => !(belongsTo key l))
      = (pyReadlines content).filter (fun l => !(belongsTo key l)) := by
  have hwf : ∀ l ∈ pyReadlines content, WFLine l := by
    rcases hend with h | h
    · intro l hl
      rw [h] at hl
      exact absurd hl (List.not_mem_nil l)
    · exact pyReadlines_wf content h
  have hb1 := belongsTo_entry key v1 hkeyWS
  have hb2 := belongsTo_entry key v2 hkeyWS
  have hwfe1 := WFLine_entry key v1 hkeyNL hv1
  have hwfe2 := WFLine_entry key v2 hkeyNL hv2
  by_cases hup : (pyReadlines content).any (fun l => belongsTo key l) = true
  · have hc1 : (pyReadlines content).countP (fun l => belongsTo key l) = 1 := by
      rcases List.any_eq_true.mp hup with ⟨a, ha, hpa⟩
      have hpos : 0 < (pyReadlines content).countP (fun l => belongsTo key l) :=
        List.countP_pos_iff.mpr ⟨a, ha, hpa⟩
      omega
    have hmapwf : ∀ l ∈ (pyReadlines content).map
        (fun l => if belongsTo key l then key ++ ['='] ++ v1 ++ ['\n'] else l), WFLine l := by
      intro l hm
      rcases List.mem_map.mp hm with ⟨a, ha, rfl⟩
      by_cases hpa : belongsTo key a = true
      · rw [if_pos hpa]; exact hwfe1
      · rw [if_neg hpa]; exact hwf a ha
    have hr1 : pyReadlines (save_key_to_env key v1 content)
        = (pyReadlines content).map
            (fun l => if belongsTo key l then key ++ ['='] ++ v1 ++ ['\n'] else l) := by
      rw [save_eq_of_any key v1 content hup]
      exact pyReadlines_flatten _ hmapwf
    have hany2 : ((pyReadlines content).map
        (fun l => if belongsTo key l then key ++ ['='] ++ v1 ++ ['\n'] else l)).any
          (fun l => belongsTo key l) = true := by
      rcases List.any_eq_true.mp hup with ⟨a, ha, hpa⟩
      apply List.any_eq_true.mpr
      refine ⟨if belongsTo key a then key ++ ['='] ++ v1 ++ ['\n'] else a,
        List.mem_map.mpr ⟨a, ha, rfl⟩, ?_⟩
      rw [if_pos hpa]
      exact hb1
    have hs2 : save_key_to_env key v2 (save_key_to_env key v1 content)
        = (((pyReadlines content).map
              (fun l => if belongsTo key l then key ++ ['='] ++ v1 ++ ['\n'] else l)).map
            (fun l => if belongsTo key l then key ++ ['='] ++ v2 ++ ['\n'] else l)).flatten := by
      have hstep := save_eq_of_any key v2 (save_key_to_env key v1 content)
        (by rw [hr1]; exact hany2)
      rw [hstep, hr1]
    have hmapwf2 : ∀ l ∈ ((pyReadlines content).map
        (fun l => if belongsTo key l then key ++ ['='] ++ v1 ++ ['\n'] else l)).map
          (fun l => if belongsTo key l then key ++ ['='] ++ v2 ++ ['\n'] else l), WFLine l := by
      intro l hm
      rcases List.mem_map.mp hm with ⟨a, ha, rfl⟩
      by_cases hpa : belongsTo key a = true
      · rw [if_pos hpa]; exact hwfe2
      · rw [if_neg hpa]; exact hmapwf a ha
    have hr2 : pyReadlines (save_key_to_env key v2 (save_key_to_env key v1 content))
        = ((pyReadlines content).map
            (fun l => if belongsTo key l then key ++ ['='] ++ v1 ++ ['\n'] else l)).map
              (fun l => if belongsTo key l then key ++ ['='] ++ v2 ++ ['\n'] else l) := by
      rw [hs2]
      exact pyReadlines_flatten _ hmapwf2
    constructor
    · rw [hr2, filter_belongs_map key _ hb2, countP_belongs_map key _ hb1, hc1]
      rfl
    · rw [hr2, filter_not_belongs_map key _ hb2, filter_not_belongs_map key _ hb1]
  · have hupf : (pyReadlines content).any (fun l => belongsTo key l) = false :=
      eq_false_of_ne_true hup
    have happwf1 : ∀ l ∈ pyReadlines content ++ [key ++ ['='] ++ v1 ++ ['\n']], WFLine l := by
      intro l hm
      rcases List.mem_append.mp hm with h | h
      · exact hwf l h
      · rw [List.mem_singleton.mp h]; exact hwfe1
    have hr1 : pyReadlines (save_key_to_env key v1 content)
        = pyReadlines content ++ [key ++ ['='] ++ v1 ++ ['\n']] := by
      rw [save_eq_of_none key v1 content hupf hwf]
      exact pyReadlines_flatten _ happwf1
    have hany2 : (pyReadlines content ++ [key ++ ['='] ++ v1 ++ ['\n']]).any
        (fun l => belongsTo key l) = true := by
      apply List.any_eq_true.mpr
      exact ⟨key ++ ['='] ++ v1 ++ ['\n'], by simp, hb1⟩
    have hmap2 : (pyReadlines content ++ [key ++ ['='] ++ v1 ++ ['\n']]).map
        (fun l => if belongsTo key l then key ++ ['='] ++ v2 ++ ['\n'] else l)
        = pyReadlines content ++ [key ++ ['='] ++ v2 ++ ['\n']] := by
      rw [List.map_append, map_eq_self_of_none key (key ++ ['='] ++ v2 ++ ['\n'])
        (pyReadlines content) hupf]
      congr 1
      simp only [List.map_cons, List.map_nil]
      rw [if_pos hb1]
    have happwf2 : ∀ l ∈ pyReadlines content ++ [key ++ ['='] ++ v2 ++ ['\n']], WFLine l := by
      intro l hm
      rcases List.mem_append.mp hm with h | h
      · exact hwf l h
      · rw [List.mem_singleton.mp h]; exact hwfe2
    have hr2 : pyReadlines (save_key_to_env key v2 (save_key_to_env key v1 content))
        = pyReadlines content ++ [key ++ ['='] ++ v2 ++ ['\n']] := by
      have hstep := save_eq_of_any key v2 (save_key_to_env key v1 content)
        (by rw [hr1]; exact hany2)
      rw [hstep, hr1, hmap2]
      exact pyReadlines_flatten _ happwf2
    have hfilnil : (pyReadlines content).filter (fun l => belongsTo key l) = [] := by
      rw [List.filter_eq_nil_iff]
      intro a ha
      rw [List.any_eq_false] at hupf
      exact hupf a ha
    have hb2f : (!(belongsTo key (key ++ ['='] ++ v2 ++ ['\n']))) = true ↔ False := by
      rw [hb2]
      simp
    constructor
    · rw [hr2, List.filter_append, hfilnil, List.nil_append, List.filter_cons, if_pos hb2]
      rfl
    · rw [hr2, List.filter_append, List.filter_cons, if_neg hb2f.mp, List.filter_nil,
        List.append_nil]

/-- Witness for the amended C3 at a concrete file, key and values. -/
theorem save_key_twice_witness :
    (pyReadlines ("A=1\n".data)).countP (fun l => belongsTo ("K".data) l) ≤ 1 ∧
    (pyReadlines (save_key_to_env ("K".data) ("y".data)
        (save_key_to_env ("K".data) ("x".data) ("A=1\n".data)))).filter
        (fun l => belongsTo ("K".data) l) = ["K".data ++ ['='] ++ "y".data ++ ['\n']] ∧
    (pyReadlines (save_key_to_env ("K".data) ("y".data)
        (save_key_to_env ("K".data) ("x".data) ("A=1\n".data)))).filter
        (fun l => !(belongsTo ("K".data) l))
      = (pyReadlines ("A=1\n".data)).filter (fun l => !(belongsTo ("K".data) l)) := by
  have hKW : ∀ c, ("K".data).head? = some c → pySpace c = false := by
    intro c hc
    have h : 'K' = c := by injection hc
    rw [← h]
    decide
  refine ⟨by decide, ?_, ?_⟩
  · exact (save_key_twice ("K".data) ("x".data) ("y".data) ("A=1\n".data)
      (Or.inr (by decide)) (by decide) (by decide) hKW (by decide) (by decide)).1
  · exact (save_key_twice ("K".data) ("x".data) ("y".data) ("A=1\n".data)
      (Or.inr (by decide)) (by decide) (by decide) hKW (by decide) (by decide)).2

/-- Counterexample to C3 as stated over all initial contents, keys and
values: duplicate key lines survive in duplicate; a file without a final
newline has its last unrelated line altered; a key with leading whitespace
never matches and piles up lines; a first value containing a newline
leaks a fresh unrelated line; a second value containing a newline is not
held by the single key line. -/
theorem save_key_twice_counterexample :
    ((pyReadlines (save_key_to_env ("K".data) ("y".data)
        (save_key_to_env ("K".data) ("x".data) ("K=a\nK=b\n".data)))).filter
        (fun l => belongsTo ("K".data) l) = ["K=y\n".data, "K=y\n".data]) ∧
    ((pyReadlines (save_key_to_env ("K".data) ("y".data)
        (save_key_to_env ("K".data) ("x".data) ("A=1".data)))).filter
        (fun l => !(belongsTo ("K".data) l))
      ≠ (pyReadlines ("A=1".data)).filter (fun l => !(belongsTo ("K".data) l))) ∧
    ((pyReadlines (save_key_to_env (" K".data) ("y".data)
        (save_key_to_env (" K".data) ("x".data) []))).filter
        (fun l => belongsTo (" K".data) l) = []) ∧
    ((pyReadlines (save_key_to_env ("K".data) ("y".data)
        (save_key_to_env ("K".data) ("a\nB=b".data) []))).filter
        (fun l => !(belongsTo ("K".data) l)) = ["B=b\n".data]) ∧
    ((pyReadlines (save_key_to_env ("K".data) ("y\nZ".data)
        (save_key_to_env ("K".data) ("x".data) []))).filter
        (fun l => belongsTo ("K".data) l) ≠ ["K".data ++ ['='] ++ "y\nZ".data ++ ['\n']]) := by
  exact ⟨by decide, by decide, by decide, by decide, by decide⟩
